import Mathlib

/-!
Shallow embedding of the genetic-algorithm course scheduler in `src/main.py`
(classes `Activity`, `Room`, `TimeSlot`, `ScheduleItem`, `Schedule`,
`GeneticAlgorithm`, and the dataset builder `create_actual_data`), together
with theorems settling the claims about it.

Python floats are modelled by `ℚ`: every fitness constant in the source
(0.5, 0.4, 0.3, 0.25, 0.2, 0.1) and every quantity the claims compare is an
exact decimal, so no rounding behaviour is load-bearing.  Calls to the global
random generator (`random.choice`, `random.random`, `random.randint`,
`random.sample`) are modelled by explicit parameters constrained to the range
the sampler draws from.  Python exceptions are modelled by `Except String`.
-/

deriving instance DecidableEq for Except

namespace Main

/-- `Activity` dataclass (src/main.py lines 8-14).  Python `Set[str]` fields are
modelled as lists used only through membership; the `section` field (a Lean
keyword) is named `sectionTag`. -/
structure Activity where
  name : String
  expected_enrollment : Int
  preferred_facilitators : List String
  other_facilitators : List String
  sectionTag : Option String := none
deriving DecidableEq, Repr, Inhabited

/-- `Room` dataclass (src/main.py lines 17-21). -/
structure Room where
  name : String
  capacity : Int
  building : String
deriving DecidableEq, Repr, Inhabited

/-- `TimeSlot` dataclass (src/main.py lines 24-30).  The source uses
`str(time_slot)` = `f"{hour:02d}:{minute:02d}"` as a dictionary key; that
format is injective in `(hour, minute)`, so grouping by key is grouping by
value equality of the slot. -/
structure TimeSlot where
  hour : Int
  minute : Int
deriving DecidableEq, Repr, Inhabited

/-- `ScheduleItem` dataclass (src/main.py lines 33-38).  Python dataclass
`==`/`!=` is field-by-field value equality, mirrored by `DecidableEq`. -/
structure ScheduleItem where
  activity : Activity
  room : Room
  time_slot : TimeSlot
  facilitator : String
deriving DecidableEq, Repr, Inhabited

/-- The bucket `time_slot_assignments[str(t)]` built in
`Schedule.calculate_fitness` (src/main.py lines 57-62): the items of the
schedule whose time slot equals `t`, in schedule order. -/
def itemsInSlot (items : List ScheduleItem) (t : TimeSlot) : List ScheduleItem :=
  items.filter (fun x => x.time_slot = t)

/-- Room-conflict term of `calculate_fitness` (src/main.py lines 67-71):
`-0.5` for every other item (value-inequality `other_item != item`) in the
same time slot with the same room. -/
def roomConflictScore (items : List ScheduleItem) (item : ScheduleItem) : ℚ :=
  -0.5 * ((itemsInSlot items item.time_slot).filter
    (fun other => other ≠ item ∧ other.room = item.room)).length

/-- Room-size term of `calculate_fitness` (src/main.py lines 73-81). -/
def roomSizeScore (item : ScheduleItem) : ℚ :=
  if item.room.capacity < item.activity.expected_enrollment then -0.5
  else if item.room.capacity > 6 * item.activity.expected_enrollment then -0.4
  else if item.room.capacity > 3 * item.activity.expected_enrollment then -0.2
  else 0.3

/-- Facilitator-preference term of `calculate_fitness` (src/main.py lines 83-89). -/
def facPreferenceScore (item : ScheduleItem) : ℚ :=
  if item.facilitator ∈ item.activity.preferred_facilitators then 0.5
  else if item.facilitator ∈ item.activity.other_facilitators then 0.2
  else -0.1

/-- `facilitator_count_in_slot` (src/main.py lines 92-93): how many items in
this item's time slot use this item's facilitator (itself included). -/
def facCountInSlot (items : List ScheduleItem) (item : ScheduleItem) : Nat :=
  ((itemsInSlot items item.time_slot).filter
    (fun x => x.facilitator = item.facilitator)).length

/-- Per-slot facilitator-load term of `calculate_fitness` (src/main.py lines 94-97). -/
def facSlotScore (count : Nat) : ℚ :=
  if count = 1 then 0.2
  else if count > 1 then -0.2
  else 0

/-- `facilitator_loads[f]` (src/main.py lines 57-58): total number of items of
the schedule assigned to facilitator `f`. -/
def facilitatorLoad (items : List ScheduleItem) (f : String) : Nat :=
  (items.filter (fun x => x.facilitator = f)).length

/-- Total-load term of `calculate_fitness` (src/main.py lines 99-105):
`if load > 4: -0.5  elif load == 3 and fac == "Dr. Tyler": -0.4
 elif load < 3 and fac != "Dr. Tyler": -0.4` (else no contribution). -/
def facTotalLoadScore (load : Nat) (facilitator : String) : ℚ :=
  if load > 4 then -0.5
  else if load = 3 ∧ facilitator = "Dr. Tyler" then -0.4
  else if load < 3 ∧ facilitator ≠ "Dr. Tyler" then -0.4
  else 0

/-- Paired-section term of `calculate_fitness` (src/main.py lines 108-118):
only for activity names `"SLA 101"` / `"SLA 191"`; `next(...)` is `find?` in
schedule order; a found item is always truthy in Python. -/
def pairedSectionScore (items : List ScheduleItem) (item : ScheduleItem) : ℚ :=
  if item.activity.name = "SLA 101" ∨ item.activity.name = "SLA 191" then
    match items.find? (fun x => x.activity.name = item.activity.name ∧
        x.activity.sectionTag ≠ item.activity.sectionTag) with
    | some other_section =>
        let time_diff := (other_section.time_slot.hour - item.time_slot.hour).natAbs
        if time_diff > 4 then 0.5
        else if time_diff = 0 then -0.5
        else 0
    | none => 0
  else 0

/-- One summand of the consecutive-slot loop (src/main.py lines 122-134),
for a given `other_item` already known to be a distinct `"SLA 101"`/`"SLA 191"`
item. -/
def consecutivePairScore (item other_item : ScheduleItem) : ℚ :=
  let time_diff := (other_item.time_slot.hour - item.time_slot.hour).natAbs
  if time_diff = 1 then
    0.5 + (if ((item.room.building = "Roman" ∨ item.room.building = "Beach") ≠
               (other_item.room.building = "Roman" ∨ other_item.room.building = "Beach"))
           then -0.4 else 0)
  else if time_diff = 2 then 0.25
  else if time_diff = 0 then -0.25
  else 0

/-- Consecutive-slot term of `calculate_fitness` (src/main.py lines 120-134):
only for items named `"SLA 101"` / `"SLA 191"`, summed over every other item
of the schedule with either of those names. -/
def consecutiveScore (items : List ScheduleItem) (item : ScheduleItem) : ℚ :=
  if item.activity.name = "SLA 101" ∨ item.activity.name = "SLA 191" then
    (items.map (fun other_item =>
      if (other_item.activity.name = "SLA 101" ∨ other_item.activity.name = "SLA 191")
          ∧ other_item ≠ item then
        consecutivePairScore item other_item
      else 0)).sum
  else 0

/-- Per-item fitness accumulated by the main loop of `calculate_fitness`
(src/main.py lines 64-136). -/
def itemFitness (items : List ScheduleItem) (item : ScheduleItem) : ℚ :=
  roomConflictScore items item
    + roomSizeScore item
    + facPreferenceScore item
    + facSlotScore (facCountInSlot items item)
    + facTotalLoadScore (facilitatorLoad items item.facilitator) item.facilitator
    + pairedSectionScore items item
    + consecutiveScore items item

/-- `Schedule.calculate_fitness` (src/main.py lines 51-138): the sum of the
per-item fitness over the schedule. -/
def calculate_fitness (items : List ScheduleItem) : ℚ :=
  (items.map (itemFitness items)).sum

/-- The fitness restricted to rules 1-5: `calculate_fitness` with the two
`"SLA 101"`/`"SLA 191"` special rules removed.  Used to state that those two
rules contribute nothing on the shipped dataset. -/
def calculate_fitness_no_special (items : List ScheduleItem) : ℚ :=
  (items.map (fun item =>
    roomConflictScore items item
      + roomSizeScore item
      + facPreferenceScore item
      + facSlotScore (facCountInSlot items item)
      + facTotalLoadScore (facilitatorLoad items item.facilitator) item.facilitator)).sum

/-- Facilitator list of `create_actual_data` (src/main.py lines 238-241). -/
def facilitators_data : List String :=
  ["Lock", "Glen", "Banks", "Richards", "Shaw", "Singer",
   "Uther", "Tyler", "Numen", "Zeldin"]

/-- Activity list of `create_actual_data` (src/main.py lines 244-278). -/
def activities_data : List Activity :=
  [⟨"SLA100", 50, ["Glen", "Lock", "Banks", "Zeldin"], ["Numen", "Richards"], some "A"⟩,
   ⟨"SLA100", 50, ["Glen", "Lock", "Banks", "Zeldin"], ["Numen", "Richards"], some "B"⟩,
   ⟨"SLA191", 50, ["Glen", "Lock", "Banks", "Zeldin"], ["Numen", "Richards"], some "A"⟩,
   ⟨"SLA191", 50, ["Glen", "Lock", "Banks", "Zeldin"], ["Numen", "Richards"], some "B"⟩,
   ⟨"SLA201", 50, ["Glen", "Banks", "Zeldin", "Shaw"], ["Numen", "Richards", "Singer"], none⟩,
   ⟨"SLA291", 50, ["Lock", "Banks", "Zeldin", "Singer"], ["Numen", "Richards", "Shaw", "Tyler"], none⟩,
   ⟨"SLA303", 60, ["Glen", "Zeldin", "Banks"], ["Numen", "Singer", "Shaw"], none⟩,
   ⟨"SLA304", 25, ["Glen", "Banks", "Tyler"],
     ["Numen", "Singer", "Shaw", "Richards", "Uther", "Zeldin"], none⟩,
   ⟨"SLA394", 20, ["Tyler", "Singer"], ["Richards", "Zeldin"], none⟩,
   ⟨"SLA449", 60, ["Tyler", "Singer", "Shaw"], ["Zeldin", "Uther"], none⟩,
   ⟨"SLA451", 100, ["Tyler", "Singer", "Shaw"], ["Zeldin", "Uther", "Richards", "Banks"], none⟩]

/-- Room list of `create_actual_data` (src/main.py lines 281-291). -/
def rooms_data : List Room :=
  [⟨"Slater 003", 45, "Slater"⟩, ⟨"Roman 216", 30, "Roman"⟩, ⟨"Loft 206", 75, "Loft"⟩,
   ⟨"Roman 201", 50, "Roman"⟩, ⟨"Loft 310", 108, "Loft"⟩, ⟨"Beach 201", 60, "Beach"⟩,
   ⟨"Beach 301", 75, "Beach"⟩, ⟨"Logos 325", 450, "Logos"⟩, ⟨"Frank 119", 60, "Frank"⟩]

/-- Time-slot list of `create_actual_data` (src/main.py lines 294-301). -/
def time_slots_data : List TimeSlot :=
  [⟨10, 0⟩, ⟨11, 0⟩, ⟨12, 0⟩, ⟨13, 0⟩, ⟨14, 0⟩, ⟨15, 0⟩]

/-- `create_actual_data` (src/main.py lines 236-303). -/
def create_actual_data :
    List Activity × List Room × List TimeSlot × List String :=
  (activities_data, rooms_data, time_slots_data, facilitators_data)

/-- No activity of the shipped dataset carries one of the two names the
special rules of `calculate_fitness` test for: the dataset spells them
`"SLA100"` / `"SLA191"`, the fitness code `"SLA 101"` / `"SLA 191"`. -/
theorem activities_data_names_not_special :
    ∀ a ∈ activities_data, ¬ (a.name = "SLA 101" ∨ a.name = "SLA 191") := by
  decide

/-- A one-item schedule drawn from the shipped dataset, used as a concrete
input for claims quantified over dataset schedules. -/
def schedule_one_dataset_item : List ScheduleItem :=
  [⟨activities_data.getD 0 default, ⟨"Slater 003", 45, "Slater"⟩, ⟨10, 0⟩, "Lock"⟩]

/-- C1: for any schedule whose activities all come from the dataset of
`create_actual_data`, the paired-section rule and the consecutive-slot rule
contribute exactly zero to every item, so `calculate_fitness` coincides with
the fitness computed from rules 1-5 alone. -/
theorem special_rules_vanish_on_dataset (items : List ScheduleItem)
    (h : ∀ item ∈ items, item.activity ∈ activities_data) :
    calculate_fitness items = calculate_fitness_no_special items ∧
    ∀ item ∈ items,
      pairedSectionScore items item = 0 ∧ consecutiveScore items item = 0 := by
  have key : ∀ item ∈ items,
      pairedSectionScore items item = 0 ∧ consecutiveScore items item = 0 := by
    intro item hit
    have hn := activities_data_names_not_special _ (h item hit)
    exact ⟨by unfold pairedSectionScore; rw [if_neg hn],
           by unfold consecutiveScore; rw [if_neg hn]⟩
  refine ⟨?_, key⟩
  unfold calculate_fitness calculate_fitness_no_special
  refine congrArg List.sum (List.map_congr_left ?_)
  intro item hit
  unfold itemFitness
  rw [(key item hit).1, (key item hit).2]
  ring

/-- Witness for `special_rules_vanish_on_dataset` on a concrete one-item
dataset schedule. -/
theorem special_rules_vanish_on_dataset_witness :
    (∀ item ∈ schedule_one_dataset_item, item.activity ∈ activities_data) ∧
    calculate_fitness schedule_one_dataset_item =
      calculate_fitness_no_special schedule_one_dataset_item ∧
    ∀ item ∈ schedule_one_dataset_item,
      pairedSectionScore schedule_one_dataset_item item = 0 ∧
      consecutiveScore schedule_one_dataset_item item = 0 :=
  ⟨by decide,
   (special_rules_vanish_on_dataset schedule_one_dataset_item (by decide)).1,
   (special_rules_vanish_on_dataset schedule_one_dataset_item (by decide)).2⟩

/-- C5: the facilitator total-load contribution of `calculate_fitness` follows
the branch cascade of src/main.py lines 99-105 in order, each branch mutually
exclusive with the earlier ones: load > 4 gives -0.5; otherwise the
"Dr. Tyler"-with-load-3 special case gives -0.4; otherwise load < 3 for a
non-"Dr. Tyler" facilitator gives -0.4; otherwise the contribution is 0. -/
theorem facTotalLoadScore_branch_cascade (load : Nat) (fac : String) :
    (load > 4 → facTotalLoadScore load fac = -0.5) ∧
    (¬ load > 4 → (fac = "Dr. Tyler" ∧ load = 3) →
      facTotalLoadScore load fac = -0.4) ∧
    (¬ load > 4 → ¬ (fac = "Dr. Tyler" ∧ load = 3) →
      (load < 3 ∧ fac ≠ "Dr. Tyler") → facTotalLoadScore load fac = -0.4) ∧
    (¬ load > 4 → ¬ (fac = "Dr. Tyler" ∧ load = 3) →
      ¬ (load < 3 ∧ fac ≠ "Dr. Tyler") → facTotalLoadScore load fac = 0) := by
  unfold facTotalLoadScore
  refine ⟨fun h => by simp [h], fun h1 h2 => ?_, fun h1 h2 h3 => ?_, fun h1 h2 h3 => ?_⟩
  · simp [h1, h2.2, h2.1]
  · simp only [if_neg h1]
    rw [if_neg (fun hc => h2 ⟨hc.2, hc.1⟩), if_pos h3]
  · simp only [if_neg h1]
    rw [if_neg (fun hc => h2 ⟨hc.2, hc.1⟩), if_neg h3]

/-- Witness for `facTotalLoadScore_branch_cascade` at concrete inputs. -/
theorem facTotalLoadScore_branch_cascade_witness :
    (5 > 4 ∧ facTotalLoadScore 5 "Lock" = -0.5) ∧
    (¬ 3 > 4 ∧ ("Dr. Tyler" = "Dr. Tyler" ∧ (3:Nat) = 3) ∧
      facTotalLoadScore 3 "Dr. Tyler" = -0.4) ∧
    facTotalLoadScore 2 "Lock" = -0.4 ∧
    facTotalLoadScore 3 "Lock" = 0 :=
  ⟨⟨by decide, (facTotalLoadScore_branch_cascade 5 "Lock").1 (by decide)⟩,
   ⟨by decide, ⟨rfl, rfl⟩,
    (facTotalLoadScore_branch_cascade 3 "Dr. Tyler").2.1 (by decide) ⟨rfl, rfl⟩⟩,
   (facTotalLoadScore_branch_cascade 2 "Lock").2.2.1 (by decide) (by decide) (by decide),
   (facTotalLoadScore_branch_cascade 3 "Lock").2.2.2 (by decide) (by decide) (by decide)⟩

/-- C6: every facilitator of the shipped dataset (`create_actual_data`, which
contains "Tyler" but not "Dr. Tyler") misses the special-case branch: the
facilitator is never the string "Dr. Tyler", any total load below 3 incurs the
-0.4 penalty, and a total load of exactly 3 (Tyler included) incurs nothing. -/
theorem dataset_facilitators_no_special_case (fac : String)
    (h : fac ∈ facilitators_data) (load : Nat) :
    fac ≠ "Dr. Tyler" ∧
    (load < 3 → facTotalLoadScore load fac = -0.4) ∧
    facTotalLoadScore 3 fac = 0 := by
  have hfac : fac ≠ "Dr. Tyler" := by
    fin_cases h <;> decide
  refine ⟨hfac, fun hlt => ?_, ?_⟩
  · unfold facTotalLoadScore
    rw [if_neg (by omega), if_neg (fun hc => hfac hc.2), if_pos ⟨hlt, hfac⟩]
  · unfold facTotalLoadScore
    rw [if_neg (by omega), if_neg (fun hc => hfac hc.2), if_neg (by omega)]

/-- Witness for `dataset_facilitators_no_special_case`: Tyler, loads 2 and 3. -/
theorem dataset_facilitators_no_special_case_witness :
    "Tyler" ∈ facilitators_data ∧ (2:Nat) < 3 ∧
    "Tyler" ≠ "Dr. Tyler" ∧
    facTotalLoadScore 2 "Tyler" = -0.4 ∧
    facTotalLoadScore 3 "Tyler" = 0 :=
  ⟨by decide, by decide,
   (dataset_facilitators_no_special_case "Tyler" (by decide) 2).1,
   (dataset_facilitators_no_special_case "Tyler" (by decide) 2).2.1 (by decide),
   (dataset_facilitators_no_special_case "Tyler" (by decide) 3).2.2⟩

/-- `random.choice(seq)` with its random draw `k` made explicit: raises
`IndexError` on an empty sequence, otherwise returns the element the draw
selects. -/
def choice {α : Type} (l : List α) (k : Nat) : Except String α :=
  if h : l.length = 0 then
    Except.error "IndexError: cannot choose from an empty sequence"
  else
    Except.ok (l.get ⟨k % l.length, Nat.mod_lt k (Nat.pos_of_ne_zero h)⟩)

/-- The `for activity in self.activities` loop of
`GeneticAlgorithm.initialize_population` (src/main.py lines 160-167), with the
index `i` of the current activity threaded through so that the random draws
`roomIdx i`, `slotIdx i`, `facIdx i` of the three `random.choice` calls are
explicit.  A raised `IndexError` propagates, aborting construction. -/
def init_items (rooms : List Room) (time_slots : List TimeSlot)
    (facilitators : List String) (roomIdx slotIdx facIdx : Nat → Nat) :
    List Activity → Nat → Except String (List ScheduleItem)
  | [], _ => Except.ok []
  | activity :: rest, i =>
    match choice rooms (roomIdx i) with
    | Except.error e => Except.error e
    | Except.ok room =>
      match choice time_slots (slotIdx i) with
      | Except.error e => Except.error e
      | Except.ok time_slot =>
        match choice facilitators (facIdx i) with
        | Except.error e => Except.error e
        | Except.ok facilitator =>
          match init_items rooms time_slots facilitators
              roomIdx slotIdx facIdx rest (i + 1) with
          | Except.error e => Except.error e
          | Except.ok tail =>
            Except.ok (ScheduleItem.mk activity room time_slot facilitator :: tail)

/-- The `for _ in range(population_size)` loop of
`GeneticAlgorithm.initialize_population` (src/main.py lines 158-168):
individual `p` is built by `mk p`, with `count` individuals still to build. -/
def initialize_population_from
    (mk : Nat → Except String (List ScheduleItem)) :
    Nat → Nat → Except String (List (List ScheduleItem))
  | _, 0 => Except.ok []
  | p, count + 1 =>
    match mk p with
    | Except.error e => Except.error e
    | Except.ok sched =>
      match initialize_population_from mk (p + 1) count with
      | Except.error e => Except.error e
      | Except.ok rest => Except.ok (sched :: rest)

/-- `GeneticAlgorithm.initialize_population` (src/main.py lines 157-169); a
non-positive `population_size` behaves like Python `range`: zero iterations. -/
def initialize_population (activities : List Activity) (rooms : List Room)
    (time_slots : List TimeSlot) (facilitators : List String)
    (population_size : Int) (roomIdx slotIdx facIdx : Nat → Nat → Nat) :
    Except String (List (List ScheduleItem)) :=
  initialize_population_from
    (fun p => init_items rooms time_slots facilitators
      (roomIdx p) (slotIdx p) (facIdx p) activities 0)
    0 population_size.toNat

/-- The engine state stored by `GeneticAlgorithm.__init__`
(src/main.py lines 149-155). -/
structure GeneticAlgorithm where
  activities : List Activity
  rooms : List Room
  time_slots : List TimeSlot
  facilitators : List String
  population_size : Int
  mutation_rate : ℚ
  population : List (List ScheduleItem)

/-- `GeneticAlgorithm.__init__` (src/main.py lines 142-155): stores every
argument without any validation and immediately builds the initial
population; the only exception construction can raise is the `IndexError` of
`random.choice` inside `initialize_population`. -/
def GeneticAlgorithm.init (activities : List Activity) (rooms : List Room)
    (time_slots : List TimeSlot) (facilitators : List String)
    (population_size : Int) (mutation_rate : ℚ)
    (roomIdx slotIdx facIdx : Nat → Nat → Nat) :
    Except String GeneticAlgorithm :=
  match initialize_population activities rooms time_slots facilitators
      population_size roomIdx slotIdx facIdx with
  | Except.error e => Except.error e
  | Except.ok population =>
    Except.ok ⟨activities, rooms, time_slots, facilitators,
               population_size, mutation_rate, population⟩

/-- `GeneticAlgorithm.crossover` (src/main.py lines 177-182), with the draw
`random.randint(1, len(self.activities) - 1)` made the explicit parameter
`crossover_point`: `parent1.items[:c] + parent2.items[c:]`. -/
def crossover (parent1 parent2 : List ScheduleItem) (crossover_point : Nat) :
    List ScheduleItem :=
  parent1.take crossover_point ++ parent2.drop crossover_point

/-- The random draws `GeneticAlgorithm.mutate` makes for one gene:
`random.random()` (field `r`), the facet pick
`random.choice(['room', 'time', 'facilitator'])` (field `facet`, 0/1/2 in
that order), and the replacement values the three possible
`random.choice(self.rooms / self.time_slots / self.facilitators)` calls
would return. -/
structure MutationDraw where
  r : ℚ
  facet : Fin 3
  new_room : Room
  new_time_slot : TimeSlot
  new_facilitator : String

/-- The body of the per-gene loop of `GeneticAlgorithm.mutate`
(src/main.py lines 186-194): when the draw of `random.random()` falls below
the mutation rate, replace exactly the facet chosen by `d.facet` with the
freshly drawn value. -/
def mutate_item (mutation_rate : ℚ) (d : MutationDraw) (item : ScheduleItem) :
    ScheduleItem :=
  if d.r < mutation_rate then
    match d.facet with
    | 0 => { item with room := d.new_room }
    | 1 => { item with time_slot := d.new_time_slot }
    | 2 => { item with facilitator := d.new_facilitator }
  else item

/-- The `for item in new_items` loop of `GeneticAlgorithm.mutate`
(src/main.py lines 186-194), gene `i` using the draws `draws i`. -/
def mutate_items (mutation_rate : ℚ) (draws : Nat → MutationDraw) :
    List ScheduleItem → Nat → List ScheduleItem
  | [], _ => []
  | item :: rest, i =>
    mutate_item mutation_rate (draws i) item ::
      mutate_items mutation_rate draws rest (i + 1)

/-- `GeneticAlgorithm.mutate` (src/main.py lines 184-195): the per-gene loop
run over a deep copy of the incoming items — in this pure embedding the input
list is unchanged by construction, which is exactly what `copy.deepcopy` on
line 185 guarantees for the Python original. -/
def mutate (mutation_rate : ℚ) (draws : Nat → MutationDraw)
    (items : List ScheduleItem) : List ScheduleItem :=
  mutate_items mutation_rate draws items 0

theorem mutate_item_activity (mutation_rate : ℚ) (d : MutationDraw)
    (item : ScheduleItem) :
    (mutate_item mutation_rate d item).activity = item.activity := by
  obtain ⟨r, facet, nr, nt, nf⟩ := d
  unfold mutate_item
  by_cases h : r < mutation_rate
  · rw [if_pos h]
    fin_cases facet <;> rfl
  · rw [if_neg h]

theorem mutate_items_length (mutation_rate : ℚ) (draws : Nat → MutationDraw) :
    ∀ (l : List ScheduleItem) (base : Nat),
      (mutate_items mutation_rate draws l base).length = l.length := by
  intro l
  induction l with
  | nil => intro base; rfl
  | cons x rest ih => intro base; simp [mutate_items, ih]

theorem mutate_items_getD (mutation_rate : ℚ) (draws : Nat → MutationDraw) :
    ∀ (l : List ScheduleItem) (base i : Nat), i < l.length →
      (mutate_items mutation_rate draws l base).getD i default =
        mutate_item mutation_rate (draws (base + i)) (l.getD i default) := by
  intro l
  induction l with
  | nil => intro base i h; simp at h
  | cons x rest ih =>
    intro base i h
    cases i with
    | zero => simp [mutate_items]
    | succ j =>
      simp only [mutate_items, List.getD_cons_succ]
      have hbase : base + (j + 1) = (base + 1) + j := by omega
      rw [hbase]
      exact ih (base + 1) j (by simpa using h)

theorem mutate_items_map_activity (mutation_rate : ℚ)
    (draws : Nat → MutationDraw) :
    ∀ (l : List ScheduleItem) (base : Nat),
      (mutate_items mutation_rate draws l base).map (·.activity) =
        l.map (·.activity) := by
  intro l
  induction l with
  | nil => intro base; rfl
  | cons x rest ih =>
    intro base
    simp [mutate_items, mutate_item_activity, ih]

theorem init_items_map_activity (rooms : List Room) (time_slots : List TimeSlot)
    (facilitators : List String) (roomIdx slotIdx facIdx : Nat → Nat) :
    ∀ (activities : List Activity) (i : Nat) (items : List ScheduleItem),
      init_items rooms time_slots facilitators roomIdx slotIdx facIdx
        activities i = Except.ok items →
      items.map (·.activity) = activities := by
  intro activities
  induction activities with
  | nil =>
    intro i items h
    unfold init_items at h
    cases h
    rfl
  | cons a rest ih =>
    intro i items h
    unfold init_items at h
    split at h
    · cases h
    split at h
    · cases h
    split at h
    · cases h
    split at h
    · cases h
    case _ tail htail =>
      cases h
      simpa using ih (i + 1) tail htail

theorem initialize_population_from_mem
    (mk : Nat → Except String (List ScheduleItem)) :
    ∀ (p count : Nat) (population : List (List ScheduleItem)),
      initialize_population_from mk p count = Except.ok population →
      ∀ sched ∈ population, ∃ q, mk q = Except.ok sched := by
  intro p count
  induction count generalizing p with
  | zero =>
    intro population h
    unfold initialize_population_from at h
    cases h
    intro sched hs
    cases hs
  | succ n ih =>
    intro population h
    unfold initialize_population_from at h
    split at h
    · cases h
    case _ sched hsched =>
      split at h
      · cases h
      case _ rest hrest =>
        cases h
        intro s hs
        rcases List.mem_cons.mp hs with rfl | hmem
        · exact ⟨p, hsched⟩
        · exact ih (p + 1) rest hrest s hmem

/-- A concrete room, slot and item reused as inputs of several witnesses. -/
def sample_room : Room := ⟨"Slater 003", 45, "Slater"⟩

def sample_slot : TimeSlot := ⟨10, 0⟩

def sample_activity : Activity := activities_data.getD 0 default

def sample_item : ScheduleItem := ⟨sample_activity, sample_room, sample_slot, "Lock"⟩

/-- A mutation draw whose `random.random()` value is 0 and whose replacement
values are the sample ones. -/
def sample_draw : MutationDraw := ⟨0, 0, sample_room, sample_slot, "Lock"⟩

/-- C7: every schedule out of `initialize_population` has exactly one item per
activity of the canonical activity list, in list order — mapping its items to
their activities yields the activity list itself, so in particular it has one
item per activity and is never partially filled — and `crossover` and
`mutate` both preserve this shape. -/
theorem schedules_follow_activity_order
    (activities : List Activity) (rooms : List Room) (time_slots : List TimeSlot)
    (facilitators : List String) (population_size : Int)
    (roomIdx slotIdx facIdx : Nat → Nat → Nat)
    (population : List (List ScheduleItem))
    (hpop : initialize_population activities rooms time_slots facilitators
      population_size roomIdx slotIdx facIdx = Except.ok population)
    (parent1 parent2 : List ScheduleItem) (crossover_point : Nat)
    (h1 : parent1.map (·.activity) = activities)
    (h2 : parent2.map (·.activity) = activities)
    (mutation_rate : ℚ) (draws : Nat → MutationDraw) :
    (∀ sched ∈ population, sched.map (·.activity) = activities) ∧
    (crossover parent1 parent2 crossover_point).map (·.activity) = activities ∧
    (mutate mutation_rate draws parent1).map (·.activity) = activities := by
  refine ⟨?_, ?_, ?_⟩
  · intro sched hs
    obtain ⟨q, hq⟩ := initialize_population_from_mem _ _ _ _ hpop sched hs
    exact init_items_map_activity _ _ _ _ _ _ _ _ _ hq
  · unfold crossover
    rw [List.map_append, List.map_take, List.map_drop, h1, h2,
      List.take_append_drop]
  · unfold mutate
    rw [mutate_items_map_activity, h1]

/-- Witness for `schedules_follow_activity_order` on a one-activity problem
with population size 1 and constant random draws. -/
theorem schedules_follow_activity_order_witness :
    initialize_population [sample_activity] rooms_data time_slots_data
      facilitators_data 1 (fun _ _ => 0) (fun _ _ => 0) (fun _ _ => 0) =
      Except.ok [[sample_item]] ∧
    [sample_item].map (·.activity) = [sample_activity] ∧
    ((∀ sched ∈ [[sample_item]], sched.map (·.activity) = [sample_activity]) ∧
     (crossover [sample_item] [sample_item] 1).map (·.activity) =
       [sample_activity] ∧
     (mutate 0 (fun _ => sample_draw) [sample_item]).map (·.activity) =
       [sample_activity]) :=
  ⟨rfl, rfl,
   schedules_follow_activity_order [sample_activity] rooms_data time_slots_data
     facilitators_data 1 (fun _ _ => 0) (fun _ _ => 0) (fun _ _ => 0)
     [[sample_item]] rfl [sample_item] [sample_item] 1 rfl rfl
     0 (fun _ => sample_draw)⟩

/-- C8: `crossover` on two parents of equal length K (K the number of
activities, K ≥ 2) with any cut point the draw
`random.randint(1, len(activities) - 1)` can produce — i.e. any C in the
inclusive range [1, K-1] — returns a child of length K whose first C items
are parent1's first C items and whose remaining K-C items are parent2's
items from position C onward. -/
theorem crossover_single_point (parent1 parent2 : List ScheduleItem)
    (K crossover_point : Nat) (h1 : parent1.length = K)
    (h2 : parent2.length = K) (hK : 2 ≤ K)
    (_hc1 : 1 ≤ crossover_point) (hc2 : crossover_point ≤ K - 1) :
    (crossover parent1 parent2 crossover_point).length = K ∧
    (crossover parent1 parent2 crossover_point).take crossover_point =
      parent1.take crossover_point ∧
    (crossover parent1 parent2 crossover_point).drop crossover_point =
      parent2.drop crossover_point := by
  unfold crossover
  have hlen : (parent1.take crossover_point).length = crossover_point := by
    rw [List.length_take]
    omega
  refine ⟨?_, ?_, ?_⟩
  · rw [List.length_append, List.length_drop, hlen]
    omega
  · rw [List.take_left' hlen]
  · rw [List.drop_left' hlen]

/-- Witness for `crossover_single_point`: two concrete two-item parents cut
at point 1. -/
theorem crossover_single_point_witness :
    [sample_item, sample_item].length = 2 ∧ (2:Nat) ≤ 2 ∧
    (1:Nat) ≤ 1 ∧ (1:Nat) ≤ 2 - 1 ∧
    ((crossover [sample_item, sample_item] [sample_item, sample_item] 1).length = 2 ∧
     (crossover [sample_item, sample_item] [sample_item, sample_item] 1).take 1 =
       [sample_item, sample_item].take 1 ∧
     (crossover [sample_item, sample_item] [sample_item, sample_item] 1).drop 1 =
       [sample_item, sample_item].drop 1) :=
  ⟨rfl, by decide, by decide, by decide,
   crossover_single_point [sample_item, sample_item] [sample_item, sample_item]
     2 1 rfl rfl (by decide) (by decide) (by decide)⟩

/-- `b` agrees with `a` on at least two of the three mutable facets: at most
one of room, time slot and facilitator differs. -/
def atMostOneFacetChanged (a b : ScheduleItem) : Prop :=
  (a.room = b.room ∧ a.time_slot = b.time_slot) ∨
  (a.room = b.room ∧ a.facilitator = b.facilitator) ∨
  (a.time_slot = b.time_slot ∧ a.facilitator = b.facilitator)

/-- `out` is `inp` with exactly the facet selected by the draw `d` replaced by
the freshly drawn value of `d`, the other two facets and the activity kept. -/
def facetReplaced (d : MutationDraw) (inp out : ScheduleItem) : Prop :=
  out.activity = inp.activity ∧
  ((d.facet = 0 ∧ out.room = d.new_room ∧ out.time_slot = inp.time_slot ∧
      out.facilitator = inp.facilitator) ∨
   (d.facet = 1 ∧ out.time_slot = d.new_time_slot ∧ out.room = inp.room ∧
      out.facilitator = inp.facilitator) ∨
   (d.facet = 2 ∧ out.facilitator = d.new_facilitator ∧ out.room = inp.room ∧
      out.time_slot = inp.time_slot))

theorem mutate_item_at_most_one_facet (mutation_rate : ℚ) (d : MutationDraw)
    (item : ScheduleItem) :
    atMostOneFacetChanged item (mutate_item mutation_rate d item) := by
  obtain ⟨r, facet, nr, nt, nf⟩ := d
  unfold mutate_item atMostOneFacetChanged
  by_cases h : r < mutation_rate
  · rw [if_pos h]
    fin_cases facet
    · exact Or.inr (Or.inr ⟨rfl, rfl⟩)
    · exact Or.inr (Or.inl ⟨rfl, rfl⟩)
    · exact Or.inl ⟨rfl, rfl⟩
  · rw [if_neg h]
    exact Or.inl ⟨rfl, rfl⟩

theorem mutate_item_rate_zero (d : MutationDraw) (item : ScheduleItem)
    (h : 0 ≤ d.r) : mutate_item 0 d item = item := by
  unfold mutate_item
  rw [if_neg (not_lt.mpr h)]

theorem mutate_item_rate_one (d : MutationDraw) (item : ScheduleItem)
    (h : d.r < 1) : facetReplaced d item (mutate_item 1 d item) := by
  obtain ⟨r, facet, nr, nt, nf⟩ := d
  unfold mutate_item facetReplaced
  rw [if_pos h]
  fin_cases facet
  · exact ⟨rfl, Or.inl ⟨rfl, rfl, rfl, rfl⟩⟩
  · exact ⟨rfl, Or.inr (Or.inl ⟨rfl, rfl, rfl, rfl⟩)⟩
  · exact ⟨rfl, Or.inr (Or.inr ⟨rfl, rfl, rfl, rfl⟩)⟩

theorem mutate_items_rate_zero (draws : Nat → MutationDraw)
    (hr0 : ∀ i, 0 ≤ (draws i).r) :
    ∀ (l : List ScheduleItem) (base : Nat), mutate_items 0 draws l base = l := by
  intro l
  induction l with
  | nil => intro base; rfl
  | cons x rest ih =>
    intro base
    unfold mutate_items
    rw [mutate_item_rate_zero (draws base) x (hr0 base), ih]

/-- C9: `mutate` works on a copy — being a function of its input it leaves
the input schedule's items unchanged, which is what `copy.deepcopy` on
src/main.py line 185 guarantees for the Python original — it preserves length
and every item's activity, it changes at most one facet (room, time slot or
facilitator) of each gene per call, with mutation rate 0 (and the draws of
`random.random()` all ≥ 0, as they always are) it returns the items
unchanged, and with mutation rate 1 (and those draws all < 1, as they always
are) it replaces exactly one facet of every item — the facet its draw chose —
with the freshly drawn value. -/
theorem mutate_per_gene (mutation_rate : ℚ) (draws : Nat → MutationDraw)
    (items : List ScheduleItem)
    (hr0 : ∀ i, 0 ≤ (draws i).r) (hr1 : ∀ i, (draws i).r < 1) :
    (mutate mutation_rate draws items).length = items.length ∧
    (∀ i, i < items.length →
      ((mutate mutation_rate draws items).getD i default).activity =
        (items.getD i default).activity ∧
      atMostOneFacetChanged (items.getD i default)
        ((mutate mutation_rate draws items).getD i default)) ∧
    (mutation_rate = 0 → mutate mutation_rate draws items = items) ∧
    (mutation_rate = 1 → ∀ i, i < items.length →
      facetReplaced (draws i) (items.getD i default)
        ((mutate mutation_rate draws items).getD i default)) := by
  unfold mutate
  refine ⟨mutate_items_length mutation_rate draws items 0, ?_, ?_, ?_⟩
  · intro i hi
    rw [mutate_items_getD mutation_rate draws items 0 i hi]
    simp only [Nat.zero_add]
    exact ⟨mutate_item_activity mutation_rate (draws i) (items.getD i default),
           mutate_item_at_most_one_facet mutation_rate (draws i)
             (items.getD i default)⟩
  · intro h
    subst h
    exact mutate_items_rate_zero draws hr0 items 0
  · intro h i hi
    subst h
    rw [mutate_items_getD 1 draws items 0 i hi]
    simp only [Nat.zero_add]
    exact mutate_item_rate_one (draws i) (items.getD i default) (hr1 i)

/-- Witness for `mutate_per_gene`: a one-item schedule with the sample draw
(whose `random.random()` value 0 satisfies 0 ≤ 0 < 1), at mutation rate 1. -/
theorem mutate_per_gene_witness :
    (∀ i : Nat, 0 ≤ ((fun _ => sample_draw) i).r) ∧
    (∀ i : Nat, ((fun _ => sample_draw) i).r < 1) ∧
    ((mutate 1 (fun _ => sample_draw) [sample_item]).length = 1 ∧
     (∀ i, i < [sample_item].length →
       ((mutate 1 (fun _ => sample_draw) [sample_item]).getD i default).activity =
         ([sample_item].getD i default).activity ∧
       atMostOneFacetChanged ([sample_item].getD i default)
         ((mutate 1 (fun _ => sample_draw) [sample_item]).getD i default)) ∧
     ((1:ℚ) = 0 → mutate 1 (fun _ => sample_draw) [sample_item] = [sample_item]) ∧
     ((1:ℚ) = 1 → ∀ i, i < [sample_item].length →
       facetReplaced ((fun _ => sample_draw) i) ([sample_item].getD i default)
         ((mutate 1 (fun _ => sample_draw) [sample_item]).getD i default))) :=
  ⟨fun _ => by show (0:ℚ) ≤ sample_draw.r; decide,
   fun _ => by show sample_draw.r < 1; decide,
   mutate_per_gene 1 (fun _ => sample_draw) [sample_item]
     (fun _ => by show (0:ℚ) ≤ sample_draw.r; decide)
     (fun _ => by show sample_draw.r < 1; decide)⟩

/-- The convergence check of `GeneticAlgorithm.evolve` (src/main.py lines
215-220) at generation index `gen`, over the `avg_fitness_history` recorded so
far (when the check runs in `evolve`, `hist.length = gen + 1`): before
generation index 100 no check runs; from then on the improvement
`(avg_fitness_history[-1] - avg_fitness_history[-100]) /
abs(avg_fitness_history[-100])` is compared with the threshold, `Except.ok
true` meaning the `break` is taken.  Python negative indexing makes
`hist[-100]` the entry at index `hist.length - 100`; when that entry is 0.0
the division raises `ZeroDivisionError`, modelled by `Except.error`. -/
def convergence_check (hist : List ℚ) (gen : Nat) (threshold : ℚ) :
    Except String Bool :=
  if gen ≥ 100 then
    if hist.getD (hist.length - 100) 0 = 0 then
      Except.error "ZeroDivisionError: float division by zero"
    else
      Except.ok (decide ((hist.getD (hist.length - 1) 0 -
          hist.getD (hist.length - 100) 0) /
        |hist.getD (hist.length - 100) 0| < threshold))
  else Except.ok false

/-- The improvement computation exactly as claim C4 words it, kept separate
for comparison with `convergence_check`: the baseline average is the one
recorded at generation index `gen - 100`, i.e. exactly 100 generations
earlier. -/
def convergence_check_claimed (hist : List ℚ) (gen : Nat) (threshold : ℚ) :
    Except String Bool :=
  if gen ≥ 100 then
    if hist.getD (gen - 100) 0 = 0 then
      Except.error "ZeroDivisionError: float division by zero"
    else
      Except.ok (decide ((hist.getD (hist.length - 1) 0 -
          hist.getD (gen - 100) 0) /
        |hist.getD (gen - 100) 0| < threshold))
  else Except.ok false

/-- C2: the convergence check of `evolve` does not treat a zero historical
average as "no improvement signal": when `avg_fitness_history[-100]` is 0.0 —
here the all-zero 101-entry history that, e.g., an engine with an empty
activity list records, every schedule having fitness 0 — the division by
`abs(avg_fitness_history[-100])` on src/main.py lines 217-218 has no guard
and raises `ZeroDivisionError`. -/
theorem convergence_check_zero_history_raises :
    convergence_check (List.replicate 101 0) 100 (1/100) =
      Except.error "ZeroDivisionError: float division by zero" := by
  rfl

/-- A 101-entry average-fitness history: 2 at generation 0, 1 at generations
1 to 99, 2 at generation 100.  Its entries at indices 0 and 1 differ, which
separates the two candidate baselines of the convergence check. -/
def history_counterexample : List ℚ := 2 :: 1 :: (List.replicate 98 1 ++ [2])

/-- C4 fails as stated: at generation index 100 with threshold 0.01 on
`history_counterexample`, the code's baseline `avg_fitness_history[-100]` is
the entry at index 1 (99 generations earlier), giving improvement
(2-1)/|1| = 1 and no early stop, while the formula of the claim — baseline at
generation index gen - 100 = 0 — gives improvement (2-2)/|2| = 0 < 0.01 and
would stop. -/
theorem convergence_check_baseline_counterexample :
    convergence_check history_counterexample 100 (1/100) = Except.ok false ∧
    convergence_check_claimed history_counterexample 100 (1/100) =
      Except.ok true := by
  have hlen : history_counterexample.length = 101 := rfl
  have h0 : history_counterexample.getD 0 0 = 2 := rfl
  have h1 : history_counterexample.getD 1 0 = 1 := rfl
  have h100 : history_counterexample.getD 100 0 = 2 := rfl
  constructor
  · unfold convergence_check
    rw [if_pos (le_refl 100), hlen]
    have e1 : (101:Nat) - 100 = 1 := rfl
    have e2 : (101:Nat) - 1 = 100 := rfl
    rw [e1, e2, h1, h100, if_neg one_ne_zero]
    have : ¬ (((2:ℚ) - 1) / |(1:ℚ)| < 1/100) := by
      rw [abs_one]
      norm_num
    rw [decide_eq_false this]
  · unfold convergence_check_claimed
    rw [if_pos (le_refl 100), hlen]
    have e1 : (100:Nat) - 100 = 0 := rfl
    have e2 : (101:Nat) - 1 = 100 := rfl
    rw [e1, e2, h0, h100, if_neg two_ne_zero]
    have : ((2:ℚ) - 2) / |(2:ℚ)| < 1/100 := by
      rw [abs_two]
      norm_num
    rw [decide_eq_true this]

/-- C4 (amended): in `evolve`, at every generation index gen ≥ 100 — the
history then holding gen+1 averages — the relative improvement is (current
average minus the average recorded 99 generations earlier, at generation
index gen - 99, which is `avg_fitness_history[-100]`) divided by the absolute
value of that same baseline, and the check signals the early `break` exactly
when this improvement is below the threshold (baseline non-zero). -/
theorem convergence_check_formula (hist : List ℚ) (gen : Nat) (threshold : ℚ)
    (hgen : 100 ≤ gen) (hlen : hist.length = gen + 1)
    (hnz : hist.getD (gen - 99) 0 ≠ 0) :
    convergence_check hist gen threshold =
      Except.ok (decide ((hist.getD gen 0 - hist.getD (gen - 99) 0) /
        |hist.getD (gen - 99) 0| < threshold)) := by
  unfold convergence_check
  rw [if_pos hgen, hlen]
  have h1 : gen + 1 - 100 = gen - 99 := by omega
  have h2 : gen + 1 - 1 = gen := by omega
  rw [h1, h2, if_neg hnz]

/-- Witness for `convergence_check_formula` on `history_counterexample` at
generation index 100 with threshold 0.01. -/
theorem convergence_check_formula_witness :
    (100:Nat) ≤ 100 ∧ history_counterexample.length = 100 + 1 ∧
    history_counterexample.getD (100 - 99) 0 ≠ 0 ∧
    convergence_check history_counterexample 100 (1/100) =
      Except.ok (decide ((history_counterexample.getD 100 0 -
          history_counterexample.getD (100 - 99) 0) /
        |history_counterexample.getD (100 - 99) 0| < (1/100 : ℚ))) :=
  ⟨by decide, by rfl, by decide,
   convergence_check_formula history_counterexample 100 (1/100)
     (by decide) (by rfl) (by decide)⟩

/-- True when an `Except` computation finished without raising. -/
def noException {α : Type} (x : Except String α) : Bool :=
  match x with
  | Except.ok _ => true
  | Except.error _ => false

/-- C3 fails on the code: `GeneticAlgorithm.__init__` performs no
configuration validation, so construction succeeds — no exception — with
population size 3 (below the tournament size 5 that `select_parent`'s
`random.sample(population, 5)` needs, which would raise `ValueError` only
mid-run) combined with mutation rate 2, outside [0, 1]; and it also succeeds
with an empty activity list and a non-positive population size. -/
theorem ga_init_accepts_invalid_config :
    noException (GeneticAlgorithm.init activities_data rooms_data
      time_slots_data facilitators_data 3 2
      (fun _ _ => 0) (fun _ _ => 0) (fun _ _ => 0)) = true ∧
    noException (GeneticAlgorithm.init [] rooms_data
      time_slots_data facilitators_data 0 2
      (fun _ _ => 0) (fun _ _ => 0) (fun _ _ => 0)) = true := by
  exact ⟨rfl, rfl⟩

/-- The sample item with a different facilitator: distinct from `sample_item`
as a value but sharing its room and time slot. -/
def sample_item_b : ScheduleItem := ⟨sample_activity, sample_room, sample_slot, "Glen"⟩

/-- C10 fails as stated for two value-identical items: `other_item != item`
on src/main.py line 70 is Python dataclass value inequality, so in a schedule
holding two equal items sharing room and time slot neither penalizes the
other — the room-conflict contribution of each is 0, not -0.5 or less. -/
theorem room_conflict_identical_items_counterexample :
    roomConflictScore [sample_item, sample_item] sample_item = 0 ∧
    ¬ roomConflictScore [sample_item, sample_item] sample_item ≤ -0.5 := by
  have hfil : (itemsInSlot [sample_item, sample_item] sample_item.time_slot).filter
      (fun other => other ≠ sample_item ∧ other.room = sample_item.room) = [] := by
    decide
  have h0 : roomConflictScore [sample_item, sample_item] sample_item = 0 := by
    unfold roomConflictScore
    rw [hfil]
    norm_num
  refine ⟨h0, ?_⟩
  rw [h0]
  norm_num

theorem roomConflictScore_le_of_conflict (items : List ScheduleItem)
    (item other : ScheduleItem) (hmem : other ∈ items) (hne : other ≠ item)
    (hroom : other.room = item.room) (hslot : other.time_slot = item.time_slot) :
    roomConflictScore items item ≤ -0.5 := by
  have hmem2 : other ∈ (itemsInSlot items item.time_slot).filter
      (fun o => o ≠ item ∧ o.room = item.room) := by
    rw [List.mem_filter]
    refine ⟨?_, by simp [hne, hroom]⟩
    unfold itemsInSlot
    rw [List.mem_filter]
    exact ⟨hmem, by simp [hslot]⟩
  have hpos : 0 < ((itemsInSlot items item.time_slot).filter
      (fun o => o ≠ item ∧ o.room = item.room)).length :=
    List.length_pos.mpr (List.ne_nil_of_mem hmem2)
  have h1 : (1:ℚ) ≤ (((itemsInSlot items item.time_slot).filter
      (fun o => o ≠ item ∧ o.room = item.room)).length : ℚ) := by
    exact_mod_cast hpos
  unfold roomConflictScore
  linarith

/-- C10 (amended): in every schedule containing at two positions two items
that are distinct as values (Python dataclass `!=`) and share the same room
and the same time slot, each of the two incurs at least the -0.5
room-conflict penalty from the other's presence. -/
theorem room_conflict_pair_penalty (items : List ScheduleItem) (i j : Nat)
    (hi : i < items.length) (hj : j < items.length)
    (hne : items.get ⟨i, hi⟩ ≠ items.get ⟨j, hj⟩)
    (hroom : (items.get ⟨i, hi⟩).room = (items.get ⟨j, hj⟩).room)
    (hslot : (items.get ⟨i, hi⟩).time_slot = (items.get ⟨j, hj⟩).time_slot) :
    roomConflictScore items (items.get ⟨i, hi⟩) ≤ -0.5 ∧
    roomConflictScore items (items.get ⟨j, hj⟩) ≤ -0.5 :=
  ⟨roomConflictScore_le_of_conflict items (items.get ⟨i, hi⟩)
     (items.get ⟨j, hj⟩) (items.get_mem _ _) (Ne.symm hne) hroom.symm hslot.symm,
   roomConflictScore_le_of_conflict items (items.get ⟨j, hj⟩)
     (items.get ⟨i, hi⟩) (items.get_mem _ _) hne hroom hslot⟩

/-- Witness for `room_conflict_pair_penalty`: two distinct items sharing room
and time slot but differing in facilitator. -/
theorem room_conflict_pair_penalty_witness :
    sample_item ≠ sample_item_b ∧
    sample_item.room = sample_item_b.room ∧
    sample_item.time_slot = sample_item_b.time_slot ∧
    roomConflictScore [sample_item, sample_item_b] sample_item ≤ -0.5 ∧
    roomConflictScore [sample_item, sample_item_b] sample_item_b ≤ -0.5 :=
  ⟨by decide, rfl, rfl,
   (room_conflict_pair_penalty [sample_item, sample_item_b] 0 1
     (by decide) (by decide) (by decide) rfl rfl).1,
   (room_conflict_pair_penalty [sample_item, sample_item_b] 0 1
     (by decide) (by decide) (by decide) rfl rfl).2⟩

end Main
